import Mathlib

/-!
Shallow embedding of the risk-control core of the trading_bot repository:
`risk_guard.py`, `risk_guard_v2.py`, `daily_tracker.py` and the panic
service (`panic/service.py`, `panic/state.py`).  Machine floats are
modelled as exact rationals; a possibly non-finite float (NaN/inf) is
`Option ℚ` with `none` standing for the non-finite case.  Wall-clock
timestamps, log side effects and phase timings are not modelled.
-/

namespace TradingBot

/-- A Python float that may be non-finite: `none` stands for NaN/inf
(everything `math.isfinite` rejects), `some q` for a finite value. -/
abbrev PyFloat := Option ℚ

/-- A raw JSON field value as seen by `_safe_float`: either something that
parses to a finite float, or something malformed / non-finite. -/
inductive RawVal where
  | numeric (q : ℚ)
  | malformed
  deriving DecidableEq, Repr

/-- `_safe_float(wallet.get(key, 0))` from risk_guard.py / risk_guard_v2.py:
a missing key yields the default `0`, a malformed or non-finite value
yields NaN (`none`). -/
def safe_float : Option RawVal → PyFloat
  | none => some 0
  | some (.numeric q) => some q
  | some .malformed => none

/-- The ordered risk modes of risk_guard_v2.py (`determine_risk_mode`). -/
inductive RiskMode where
  | NORMAL
  | ALERT
  | DERISK
  | EMERGENCY
  | HALT
  deriving DecidableEq, Repr

/-- Severity rank of a risk mode: NORMAL < ALERT < DERISK < EMERGENCY < HALT. -/
def RiskMode.severity : RiskMode → Nat
  | .NORMAL => 0
  | .ALERT => 1
  | .DERISK => 2
  | .EMERGENCY => 3
  | .HALT => 4

/-- Command priority labels used by `create_command`. -/
inductive Priority where
  | NONE
  | LOW
  | MEDIUM
  | HIGH
  | IMMEDIATE
  deriving DecidableEq, Repr

/-- The threshold / target configuration of `RiskCommandCenter.__init__`
(and `RiskGuard.__init__`), with the source defaults. -/
structure RiskConfig where
  warn_at : ℚ := 60/100
  derisk_at : ℚ := 70/100
  cap_at : ℚ := 80/100
  halt_at : ℚ := 90/100
  target_after_derisk : ℚ := 60/100
  target_after_emergency : ℚ := 58/100
  deriving DecidableEq, Repr

/-- The default configuration (all keyword defaults of the constructors). -/
def defaultConfig : RiskConfig := {}

/-- `RiskCommandCenter.determine_risk_mode`: ordered threshold comparison,
highest threshold first, falling through to NORMAL. -/
def determine_risk_mode (cfg : RiskConfig) (utilization : ℚ) : RiskMode :=
  if utilization ≥ cfg.halt_at then .HALT
  else if utilization ≥ cfg.cap_at then .EMERGENCY
  else if utilization ≥ cfg.derisk_at then .DERISK
  else if utilization ≥ cfg.warn_at then .ALERT
  else .NORMAL

/-- One wallet entry of the Bybit wallet-balance response.  `none` on a
field means the key is absent from the JSON object. -/
structure WalletEntry where
  totalEquity : Option RawVal := none
  totalInitialMargin : Option RawVal := none
  totalAvailableBalance : Option RawVal := none
  deriving DecidableEq, Repr

/-- The wallet-balance response envelope (`retCode` plus `result.list`). -/
structure WalletResponse where
  retCode : Int
  list : List WalletEntry
  deriving DecidableEq, Repr

/-- A successful utilization poll: the tuple
`(utilization, total_equity, used_im, free_equity)` returned by
`get_wallet_utilization` / `get_im_utilization`.  `used_im` and
`free_equity` may be NaN. -/
structure Snapshot where
  utilization : ℚ
  total_equity : ℚ
  used_im : PyFloat
  free_equity : PyFloat
  deriving DecidableEq, Repr

/-- `RiskCommandCenter.get_wallet_utilization`, with the
`consecutive_errors` counter threaded explicitly: any raised error
increments the counter and yields `none`; a successful poll resets the
counter to zero and yields the snapshot.  The utilization is
`max(0, min(1, used_im / total_equity if isfinite(used_im) else 0.0))`,
and the call fails when `retCode ≠ 0`, the wallet list is empty, or
`total_equity` is non-finite or not positive. -/
def get_wallet_utilization (consecutive_errors : Nat) (resp : WalletResponse) :
    Nat × Option Snapshot :=
  if resp.retCode ≠ 0 then (consecutive_errors + 1, none)
  else
    match resp.list with
    | [] => (consecutive_errors + 1, none)
    | wallet :: _ =>
      match safe_float wallet.totalEquity with
      | none => (consecutive_errors + 1, none)
      | some t =>
        if 0 < t then
          (0, some { utilization :=
                       max 0 (min 1 (match safe_float wallet.totalInitialMargin with
                         | some u => u / t
                         | none => 0)),
                     total_equity := t,
                     used_im := safe_float wallet.totalInitialMargin,
                     free_equity := safe_float wallet.totalAvailableBalance })
        else (consecutive_errors + 1, none)

/-- The command dictionary built by `RiskCommandCenter.create_command`
(and the emergency fallback in `monitor_and_command`).  Fields that a
given mode's branch does not put into the dictionary are `none`.  The
`timestamp`, `dry_run` and human-readable `message` entries are elided. -/
structure Command where
  mode : RiskMode
  utilization : Option ℚ := none
  total_equity : Option ℚ := none
  used_im : Option PyFloat := none
  allow_new_entries : Bool
  cancel_all_orders : Option Bool := none
  close_positions : Option Bool := none
  close_all_positions : Option Bool := none
  close_fraction : Option ℚ := none
  target_utilization : Option ℚ := none
  excess_im_to_reduce : Option PyFloat := none
  priority : Option Priority := none
  deriving DecidableEq, Repr

/-- Subtraction on a possibly-NaN float: NaN propagates. -/
def pySub (a : PyFloat) (b : ℚ) : PyFloat := a.map (fun x => x - b)

/-- `RiskCommandCenter.create_command`: builds the per-mode command.  For
EMERGENCY/DERISK the excess IM is `used_im - target * total_equity`. -/
def create_command (cfg : RiskConfig) (mode : RiskMode) (utilization : ℚ)
    (total_equity : ℚ) (used_im : PyFloat) : Command :=
  let base : Command :=
    { mode := mode, utilization := some utilization,
      total_equity := some total_equity, used_im := some used_im,
      allow_new_entries := true }
  match mode with
  | .HALT =>
    { base with
      allow_new_entries := false
      cancel_all_orders := some true
      close_all_positions := some true
      close_fraction := some 1
      priority := some .IMMEDIATE }
  | .EMERGENCY =>
    { base with
      allow_new_entries := false
      cancel_all_orders := some true
      close_positions := some true
      close_fraction := some (33/100)
      target_utilization := some cfg.target_after_emergency
      excess_im_to_reduce := some (pySub used_im (cfg.target_after_emergency * total_equity))
      priority := some .HIGH }
  | .DERISK =>
    { base with
      allow_new_entries := false
      cancel_all_orders := some true
      close_positions := some true
      close_fraction := some (25/100)
      target_utilization := some cfg.target_after_derisk
      excess_im_to_reduce := some (pySub used_im (cfg.target_after_derisk * total_equity))
      priority := some .MEDIUM }
  | .ALERT =>
    { base with
      allow_new_entries := true
      cancel_all_orders := some false
      close_positions := some false
      priority := some .LOW }
  | .NORMAL =>
    { base with
      allow_new_entries := true
      cancel_all_orders := some false
      close_positions := some false
      priority := some .NONE }

/-- The emergency fallback command written by `monitor_and_command` after
three or more consecutive errors. -/
def emergency_fallback_command : Command :=
  { mode := .HALT
    allow_new_entries := false
    cancel_all_orders := some true
    close_all_positions := some true
    priority := some .IMMEDIATE }

/-- The mutable state of `RiskCommandCenter` that one monitoring cycle
reads and writes. -/
structure MonitorState where
  last_utilization : ℚ := 0
  last_mode : RiskMode := .NORMAL
  consecutive_errors : Nat := 0
  deriving DecidableEq, Repr

/-- One cycle of `RiskCommandCenter.monitor_and_command`, as a function of
the wallet response this cycle observes.  Returns the new state, the
command written to the command file this cycle (`none` when nothing is
written), and the cycle's boolean result.  On a failed poll the error
counter has already been incremented by `get_wallet_utilization`; the
emergency fallback command is written only when it has reached 3. -/
def monitor_and_command (cfg : RiskConfig) (st : MonitorState)
    (resp : WalletResponse) : MonitorState × Option Command × Bool :=
  match get_wallet_utilization st.consecutive_errors resp with
  | (errs, some snap) =>
    let mode := determine_risk_mode cfg snap.utilization
    let cmd := create_command cfg mode snap.utilization snap.total_equity snap.used_im
    ({ last_utilization := snap.utilization, last_mode := mode,
       consecutive_errors := errs }, some cmd, true)
  | (errs, none) =>
    ({ st with consecutive_errors := errs },
     if 3 ≤ errs then some emergency_fallback_command else none, false)

/-- A normalized position as built by `RiskGuard.get_all_positions`. -/
structure Position where
  symbol : String
  side : String
  contracts : ℚ
  leverage : ℚ
  entry_price : ℚ
  position_im : ℚ
  unrealized_pnl : ℚ
  is_losing : Bool
  deriving DecidableEq, Repr

/-- The validity checks of `RiskGuard.close_position_fraction`: the close
is emitted (and, in dry-run, reported successful) iff the fraction lies in
(0, 1] and the resulting close quantity `contracts * fraction` is
positive. -/
def close_ok (p : Position) (fraction : ℚ) : Bool :=
  decide (0 < fraction) && decide (fraction ≤ 1) && decide (0 < p.contracts * fraction)

/-- The sort key ordering of `shed_margin_to_target`: the Python key is
the tuple `(not is_losing, -leverage, -position_im)` compared
lexicographically, i.e. losing positions first, then higher leverage,
then higher position IM. -/
def shed_sort_le (p q : Position) : Bool :=
  let b1 : Nat := if p.is_losing then 0 else 1
  let b2 : Nat := if q.is_losing then 0 else 1
  if b1 ≠ b2 then decide (b1 < b2)
  else if p.leverage ≠ q.leverage then decide (q.leverage < p.leverage)
  else decide (q.position_im ≤ p.position_im)

/-- The main loop of `RiskGuard.shed_margin_to_target` in dry-run
semantics (every valid close succeeds): walk the sorted positions,
breaking once `remaining_excess ≤ 0`; for each position compute
`needed_fraction = min(chunk_fraction, max(0.05, remaining / max(1e-9, position_im)))`,
emit the close when `close_position_fraction` accepts it, and decrement
the remaining excess by the estimated freed IM
`position_im * needed_fraction`. -/
def shed_loop (chunk_fraction : ℚ) : List Position → ℚ → List (Position × ℚ)
  | [], _ => []
  | p :: rest, remaining_excess =>
    if remaining_excess ≤ 0 then []
    else
      let max_im_reduction := p.position_im
      let needed_fraction :=
        min chunk_fraction
          (max (5/100) (remaining_excess / max (1/1000000000) max_im_reduction))
      if close_ok p needed_fraction then
        (p, needed_fraction) ::
          shed_loop chunk_fraction rest
            (remaining_excess - max_im_reduction * needed_fraction)
      else
        shed_loop chunk_fraction rest remaining_excess

/-- `RiskGuard.shed_margin_to_target` as a planning function: the ordered
list of (position, close_fraction) actions it emits.  Returns nothing
when the excess IM `used_im - target_utilization * total_equity` is not
positive; otherwise filters to positions with positive IM, sorts them by
the priority key, and runs the greedy loop. -/
def shed_margin_to_target (positions : List Position) (total_equity : ℚ)
    (used_im : ℚ) (target_utilization : ℚ) (chunk_fraction : ℚ) :
    List (Position × ℚ) :=
  let target_im := target_utilization * total_equity
  let excess_im := used_im - target_im
  if excess_im ≤ 0 then []
  else
    let valid_positions := positions.filter (fun p => decide (0 < p.position_im))
    shed_loop chunk_fraction (valid_positions.mergeSort shed_sort_le) excess_im

/-- The estimated total IM freed by a plan: the sum of
`position_im * fraction` over the emitted actions (exactly the quantity
the loop decrements `remaining_excess` by). -/
def freed_sum (plan : List (Position × ℚ)) : ℚ :=
  (plan.map (fun pf => pf.1.position_im * pf.2)).sum

/-- The total position margin available across a list of positions (the
"total available position margin" of the spec). -/
def total_position_im (positions : List Position) : ℚ :=
  (positions.map Position.position_im).sum

/- daily_tracker.py -/

/-- One UTC day's record in the daily PnL ledger. -/
structure DayData where
  realized : ℚ
  stopped : Bool
  loss_streak : Nat
  trades : Nat
  deriving DecidableEq, Repr

/-- The default record a fresh day starts from. -/
def emptyDay : DayData := { realized := 0, stopped := false, loss_streak := 0, trades := 0 }

/-- Python `round(x, 6)` (round half to even at six decimal places),
idealized over exact rationals. -/
def pyRound6 (q : ℚ) : ℚ :=
  let scaled := q * 1000000
  let fl : Int := ⌊scaled⌋
  let frac := scaled - fl
  let r : Int :=
    if 1/2 < frac then fl + 1
    else if frac < 1/2 then fl
    else if fl % 2 = 0 then fl else fl + 1
  (r : ℚ) / 1000000

/-- `add_realized_pnl(delta)` acting on the current day's record: adds the
delta to the realized total (rounded to six decimals), increments the
trade count, and increments the loss streak on a negative delta while
resetting it to zero otherwise. -/
def add_realized_pnl (day : DayData) (delta : ℚ) : DayData :=
  { realized := pyRound6 (day.realized + delta)
    trades := day.trades + 1
    loss_streak := if delta < 0 then day.loss_streak + 1 else 0
    stopped := day.stopped }

/- State-store file writes and their observable intermediate states. -/

/-- A filesystem operation a writer performs: an (interruptible) plain
write of a whole file, or an atomic rename. -/
inductive FsOp where
  | write (path content : String)
  | rename (src dst : String)
  deriving DecidableEq, Repr

/-- The filesystem: a partial map from paths to file contents. -/
def FileSys : Type := String → Option String

/-- Point update of the filesystem map. -/
def fsUpdate (fs : FileSys) (p : String) (v : Option String) : FileSys :=
  fun q => if q = p then v else fs q

/-- The intermediate filesystem states a plain `write p c` passes through:
after `k` characters the file `p` holds the length-`k` prefix of `c`. -/
def writeStates (fs : FileSys) (p c : String) : List FileSys :=
  (List.range (c.length + 1)).map
    (fun k => fsUpdate fs p (some (String.mk (c.toList.take k))))

/-- All filesystem states a sequence of operations passes through,
starting from `fs`: a plain write exposes every partial prefix, a rename
is a single atomic step moving `src` over `dst`. -/
def microStates : List FsOp → FileSys → List FileSys
  | [], fs => [fs]
  | .write p c :: rest, fs =>
    writeStates fs p c ++ microStates rest (fsUpdate fs p (some c))
  | .rename src dst :: rest, fs =>
    fs :: microStates rest (fsUpdate (fsUpdate fs dst (fs src)) src none)

/-- What a concurrent reader of path `watch` can observe while the
operations run: the content of `watch` in every intermediate state. -/
def observations (ops : List FsOp) (fs : FileSys) (watch : String) :
    List (Option String) :=
  (microStates ops fs).map (fun st => st watch)

/-- `RiskCommandCenter.write_command_file`: write to
`command_file + ".tmp"`, then rename it over the command file. -/
def write_command_file_ops (command_file content : String) : List FsOp :=
  [.write (command_file ++ ".tmp") content,
   .rename (command_file ++ ".tmp") command_file]

/-- `pathlib.Path.with_suffix('.tmp')`: replace the final extension (the
part after the last dot, when there is one) with `.tmp`; the default lock
path has its only dot in the final component. -/
def with_suffix_tmp (p : String) : String :=
  let cs := p.toList
  if cs.contains '.' then
    String.mk (((cs.reverse.dropWhile (fun ch => ch ≠ '.')).drop 1).reverse) ++ ".tmp"
  else p ++ ".tmp"

/-- `StateManager.create_panic_lock`: write the lock document to
`lock_path.with_suffix('.tmp')`, then rename it over the lock path. -/
def create_panic_lock_ops (lock_path content : String) : List FsOp :=
  [.write (with_suffix_tmp lock_path) content,
   .rename (with_suffix_tmp lock_path) lock_path]

/-- `RiskGuard.write_flag_file`: a single plain write, directly to the
final flag path (no temporary file, no rename). -/
def write_flag_file_ops (flag_file content : String) : List FsOp :=
  [.write flag_file content]

/- panic/state.py and panic/service.py -/

/-- A position row of the linear-positions endpoint (the fields the panic
service reads). -/
structure LinPosition where
  entry_price : ℚ
  size : ℚ
  side : String
  deriving DecidableEq, Repr

/-- An order row (plain or conditional): only its status is inspected. -/
structure LinOrder where
  order_status : String
  deriving DecidableEq, Repr

/-- A query response: a `ret_msg` and the result payload. -/
structure QueryResult (α : Type) where
  ret_msg : String
  data : α
  deriving DecidableEq, Repr

/-- The exchange gateway as the panic service sees it: the configured coin
symbols and, keyed by the full `symbol + "USDT"` string, the query
responses for positions, plain orders and conditional orders, plus the
`ret_msg` answers to cancel and order-placement requests (an absent key
models a request that raises). -/
structure Gateway where
  coins : List String
  positions : List (String × QueryResult (List LinPosition))
  linOrders : List (String × QueryResult (List LinOrder))
  condOrders : List (String × QueryResult (List LinOrder))
  cancelLinMsg : List (String × String)
  cancelCondMsg : List (String × String)
  placeMsg : List (String × String)
  deriving DecidableEq, Repr

/-- Association-list lookup for the gateway tables. -/
def qlookup {α : Type} (l : List (String × α)) (k : String) : Option α :=
  (l.find? (fun e => e.1 == k)).map (fun e => e.2)

/-- `PanicService._get_symbols_with_positions`: the coins whose position
query answers OK and reports some position with a positive entry price. -/
def symbols_with_positions (g : Gateway) : List String :=
  g.coins.filter (fun s =>
    match qlookup g.positions (s ++ "USDT") with
    | some r => r.ret_msg == "OK" && r.data.any (fun p => decide (0 < p.entry_price))
    | none => false)

/-- Whether a coin has a live plain order: the order query answers OK and
some order status is neither Filled nor Cancelled. -/
def has_lin_orders (g : Gateway) (s : String) : Bool :=
  match qlookup g.linOrders (s ++ "USDT") with
  | some r => r.ret_msg == "OK" &&
      r.data.any (fun o => !(o.order_status == "Filled" || o.order_status == "Cancelled"))
  | none => false

/-- Whether a coin has a live conditional order: the conditional query
answers OK and some order status is not Deactivated. -/
def has_cond_orders (g : Gateway) (s : String) : Bool :=
  match qlookup g.condOrders (s ++ "USDT") with
  | some r => r.ret_msg == "OK" && r.data.any (fun o => !(o.order_status == "Deactivated"))
  | none => false

/-- `PanicService._get_symbols_with_orders`: accumulate coins with plain
orders; a coin not yet accumulated is also added when it has a live
conditional order. -/
def symbols_with_orders (g : Gateway) : List String :=
  g.coins.foldl (fun acc s =>
    let acc2 := if has_lin_orders g s then acc ++ [s] else acc
    if !acc2.contains s && has_cond_orders g s then acc2 ++ [s] else acc2) []

/-- The panic execution report (`PanicReport` dataclass); the wall-clock
fields `started_at`, `ended_at`, `phase_timings` and `total_duration_sec`
are elided. -/
structure PanicReport where
  symbols_touched : List String := []
  orders_canceled : Nat := 0
  positions_closed : Nat := 0
  warnings : List String := []
  locked : Bool := false
  success : Bool := false
  error_message : Option String := none
  deriving DecidableEq, Repr

/-- The persisted panic lock document. -/
structure LockDoc where
  panic_tripped : Bool
  trading_enabled : Bool
  last_report : PanicReport
  deriving DecidableEq, Repr

/-- The panic coordinator's state: the in-memory `StateManager` flags, the
persisted lock file, and the `trading_disabled.flag` sentinel. -/
structure PanicState where
  trading_enabled : Bool := true
  panic_tripped : Bool := false
  lock_file : Option LockDoc := none
  sentinel : Bool := false
  deriving DecidableEq, Repr

/-- A mutating request the panic service sends to the gateway (queries are
reads and are not listed). -/
inductive GatewayCall where
  | cancelLinear (symbol : String)
  | cancelConditional (symbol : String)
  | placeClose (symbol side : String) (qty : ℚ)
  deriving DecidableEq, Repr

/-- Rewrite the payload of one keyed query response. -/
def setData {α : Type} (l : List (String × QueryResult α)) (k : String)
    (f : α → α) : List (String × QueryResult α) :=
  l.map (fun e => if e.1 == k then (e.1, { e.2 with data := f e.2.data }) else e)

/-- Effect of a successful cancel-all on the gateway: the symbol's plain
orders are gone. -/
def clearLinOrders (g : Gateway) (s : String) : Gateway :=
  { g with linOrders := setData g.linOrders (s ++ "USDT") (fun _ => []) }

/-- Effect of a successful conditional cancel-all: the symbol's
conditional orders are gone. -/
def clearCondOrders (g : Gateway) (s : String) : Gateway :=
  { g with condOrders := setData g.condOrders (s ++ "USDT") (fun _ => []) }

/-- Effect of a successful reduce-only close: the symbol's live positions
(positive entry price) are gone. -/
def clearPositions (g : Gateway) (s : String) : Gateway :=
  { g with positions :=
      (setData g.positions (s ++ "USDT")
        (fun ps => ps.filter (fun p => !decide (0 < p.entry_price)))) }

/-- `PanicService._phase_2_cancel_all` over one symbol: issue the plain
and conditional cancel-alls, counting each OK answer; an absent response
raises, is recorded as a warning, and skips the rest of this symbol. -/
def phase2_symbol (acc : PanicReport × List GatewayCall × Gateway × Nat)
    (s : String) : PanicReport × List GatewayCall × Gateway × Nat :=
  let (rep, calls, gw, errs) := acc
  match qlookup gw.cancelLinMsg (s ++ "USDT") with
  | none =>
    ({ rep with warnings := rep.warnings ++ ["Cancel error for " ++ s] },
     calls ++ [.cancelLinear s], gw, errs + 1)
  | some m1 =>
    let rep1 := if m1 == "OK" then { rep with orders_canceled := rep.orders_canceled + 1 } else rep
    let gw1 := if m1 == "OK" then clearLinOrders gw s else gw
    match qlookup gw1.cancelCondMsg (s ++ "USDT") with
    | none =>
      ({ rep1 with warnings := rep1.warnings ++ ["Cancel error for " ++ s] },
       calls ++ [.cancelLinear s, .cancelConditional s], gw1, errs + 1)
    | some m2 =>
      let rep2 := if m2 == "OK" then { rep1 with orders_canceled := rep1.orders_canceled + 1 } else rep1
      let gw2 := if m2 == "OK" then clearCondOrders gw1 s else gw1
      (rep2, calls ++ [.cancelLinear s, .cancelConditional s], gw2, errs)

/-- Phase 2 over all symbols that currently have orders; succeeds when no
symbol raised. -/
def phase_2_cancel_all (g : Gateway) (rep : PanicReport) :
    PanicReport × List GatewayCall × Gateway × Bool :=
  let res := (symbols_with_orders g).foldl phase2_symbol (rep, [], g, 0)
  (res.1, res.2.1, res.2.2.1, res.2.2.2 == 0)

/-- The closing side used by phase 3: the opposite of the position side. -/
def close_side (side : String) : String := if side == "Buy" then "Sell" else "Buy"

/-- Phase 3's inner loop over one symbol's position rows: every row with a
positive entry price gets one reduce-only market close; an OK answer to
the placement counts the position as closed.  An absent placement
response raises and aborts the remaining rows of this symbol. -/
def close_rows (gw : Gateway) (s : String) :
    List LinPosition → Nat × List GatewayCall × Bool
  | [] => (0, [], false)
  | p :: rest =>
    if 0 < p.entry_price then
      let call := GatewayCall.placeClose s (close_side p.side) p.size
      match qlookup gw.placeMsg (s ++ "USDT") with
      | none => (0, [call], true)
      | some m =>
        let res := close_rows gw s rest
        ((if m == "OK" then 1 else 0) + res.1, call :: res.2.1, res.2.2)
    else
      close_rows gw s rest

/-- `PanicService._phase_3_flatten_all` over one symbol: re-query the
positions and close every live row. -/
def phase3_symbol (acc : PanicReport × List GatewayCall × Gateway × Nat)
    (s : String) : PanicReport × List GatewayCall × Gateway × Nat :=
  let (rep, calls, gw, errs) := acc
  match qlookup gw.positions (s ++ "USDT") with
  | none =>
    ({ rep with warnings := rep.warnings ++ ["Close error for " ++ s] },
     calls, gw, errs + 1)
  | some r =>
    if r.ret_msg == "OK" then
      let res := close_rows gw s r.data
      let rep1 := { rep with positions_closed := rep.positions_closed + res.1 }
      let rep2 := if res.2.2 then
          { rep1 with warnings := rep1.warnings ++ ["Close error for " ++ s] }
        else rep1
      let gw1 := if qlookup gw.placeMsg (s ++ "USDT") == some "OK" then clearPositions gw s else gw
      (rep2, calls ++ res.2.1, gw1, if res.2.2 then errs + 1 else errs)
    else
      (rep, calls, gw, errs)

/-- Phase 3 over all symbols that currently have positions. -/
def phase_3_flatten_all (g : Gateway) (rep : PanicReport) :
    PanicReport × List GatewayCall × Gateway × Bool :=
  let res := (symbols_with_positions g).foldl phase3_symbol (rep, [], g, 0)
  (res.1, res.2.1, res.2.2.1, res.2.2.2 == 0)

/-- `PanicService._phase_4_verify_clean`'s polling loop (the world between
attempts is the already-updated gateway): succeed as soon as both the
position and order symbol counts are zero within the retry budget. -/
def verify_loop (g : Gateway) : Nat → Bool
  | 0 => false
  | n + 1 =>
    if (symbols_with_positions g).length = 0 && (symbols_with_orders g).length = 0 then true
    else verify_loop g n

/-- Phase 4: run the verification loop and record a timeout warning on
failure. -/
def phase_4_verify_clean (max_retries : Nat) (g : Gateway) (rep : PanicReport) :
    PanicReport × Bool :=
  if verify_loop g max_retries then (rep, true)
  else ({ rep with warnings := rep.warnings ++ ["Verification timeout"] }, false)

/-- Phase 5: record the union of symbols still showing positions or
orders, persist the lock document holding the report snapshot, and set
the in-memory flags. -/
def phase_5_arm_lock (g : Gateway) (st : PanicState) (rep : PanicReport) :
    PanicReport × PanicState :=
  let touched := (symbols_with_positions g ++ symbols_with_orders g).dedup
  let rep1 := { rep with symbols_touched := touched }
  (rep1,
   { st with panic_tripped := true, trading_enabled := false,
             lock_file := some { panic_tripped := true, trading_enabled := false,
                                 last_report := rep1 } })

/-- `StateManager.finalize_report`: stamp success, lock the report iff
successful, and record the aggregate error message. -/
def finalize_report (rep : PanicReport) (success : Bool) : PanicReport :=
  { rep with success := success, locked := success,
             error_message := if success then none else some "Multiple phase failures" }

/-- The outcome of one `execute_panic` invocation: the returned report,
the mutating gateway calls issued, and the resulting local state and
gateway. -/
structure PanicOutcome where
  report : PanicReport
  calls : List GatewayCall
  state : PanicState
  client : Option Gateway
  deriving DecidableEq, Repr

/-- The phase pipeline of `execute_panic` once re-entry has been ruled
out: phase 1 disables trading and drops the sentinel; phases 2-4 are
skipped (reported successful) without a client; phase 5 always arms the
lock; phase 6 (alerting) issues no gateway calls; finally the report is
finalized with the conjunction of the phase verdicts. -/
def run_phases (max_retries : Nat) (st : PanicState) (client : Option Gateway) :
    PanicOutcome :=
  let rep0 : PanicReport := {}
  let st1 := { st with trading_enabled := false, sentinel := true }
  match client with
  | none =>
    let (rep1, st2) := phase_5_arm_lock
      { coins := [], positions := [], linOrders := [], condOrders := [],
        cancelLinMsg := [], cancelCondMsg := [], placeMsg := [] } st1 rep0
    { report := finalize_report rep1 true, calls := [], state := st2, client := none }
  | some g =>
    let (rep2, calls2, g2, ok2) := phase_2_cancel_all g rep0
    let (rep3, calls3, g3, ok3) := phase_3_flatten_all g2 rep2
    let (rep4, ok4) := phase_4_verify_clean max_retries g3 rep3
    let (rep5, st2) := phase_5_arm_lock g3 st1 rep4
    let success := ok2 && ok3 && ok4
    { report := finalize_report rep5 success, calls := calls2 ++ calls3,
      state := st2, client := some g3 }

/-- `PanicService.execute_panic`: if the panic lock is already active and
a persisted report exists, return it unchanged without running any phase;
otherwise run the six-phase pipeline. -/
def execute_panic (max_retries : Nat) (st : PanicState) (client : Option Gateway) :
    PanicOutcome :=
  if st.panic_tripped then
    match st.lock_file with
    | some doc => { report := doc.last_report, calls := [], state := st, client := client }
    | none => run_phases max_retries st client
  else run_phases max_retries st client

/-- The dictionary `reset_panic` returns. -/
structure ResetResult where
  success : Bool
  error : Option String := none
  positions_remaining : Option Nat := none
  orders_remaining : Option Nat := none
  deriving DecidableEq, Repr

/-- `PanicService.reset_panic`: with a client, first re-query the live
position and order symbol counts and refuse (reporting both counts,
leaving all state untouched) when either is nonzero; otherwise remove the
lock file and sentinel and re-enable trading. -/
def reset_panic (st : PanicState) (client : Option Gateway) :
    ResetResult × PanicState :=
  let doReset : ResetResult × PanicState :=
    ({ success := true },
     { st with lock_file := none, panic_tripped := false,
               trading_enabled := true, sentinel := false })
  match client with
  | some g =>
    let positions_remaining := (symbols_with_positions g).length
    let orders_remaining := (symbols_with_orders g).length
    if 0 < positions_remaining ∨ 0 < orders_remaining then
      ({ success := false, error := some "Unsafe reset",
         positions_remaining := some positions_remaining,
         orders_remaining := some orders_remaining }, st)
    else doReset
  | none => doReset

/- Theorems. -/

/-- Any utilization poll either fails, incrementing the error counter,
or succeeds with the counter reset to zero. -/
lemma get_wallet_utilization_cases (e : Nat) (resp : WalletResponse) :
    get_wallet_utilization e resp = (e + 1, none) ∨
    ∃ snap, get_wallet_utilization e resp = (0, some snap) := by
  unfold get_wallet_utilization
  split
  · exact Or.inl rfl
  · split
    · exact Or.inl rfl
    · split
      · exact Or.inl rfl
      · split
        · exact Or.inr ⟨_, rfl⟩
        · exact Or.inl rfl

/-- C1: for a wallet with total_equity=1000 and used_im=750 the monitor
cycle computes utilization 0.75, classifies DERISK, and writes a command
with close_fraction=0.25, target_utilization=0.60 and
allow_new_entries=false. -/
theorem scenarioA_derisk_command :
    monitor_and_command defaultConfig {}
      { retCode := 0,
        list := [{ totalEquity := some (.numeric 1000),
                   totalInitialMargin := some (.numeric 750) }] } =
    ({ last_utilization := 75/100, last_mode := .DERISK, consecutive_errors := 0 },
     some { mode := .DERISK, utilization := some (75/100), total_equity := some 1000,
            used_im := some (some 750), allow_new_entries := false,
            cancel_all_orders := some true, close_positions := some true,
            close_fraction := some (25/100), target_utilization := some (60/100),
            excess_im_to_reduce := some (some 150), priority := some .MEDIUM },
     true) := by
  simp only [monitor_and_command, get_wallet_utilization, safe_float, determine_risk_mode,
    create_command, defaultConfig, pySub, Option.map]
  norm_num

/-- C8: on an empty UTC day, add_realized(+50) then add_realized(-20)
yields realized=30, loss_streak=1, trades=2; in general the loss streak
resets to zero on a non-negative delta and increments on a negative one. -/
theorem daily_ledger_streak :
    add_realized_pnl (add_realized_pnl emptyDay 50) (-20) =
      { realized := 30, stopped := false, loss_streak := 1, trades := 2 } ∧
    ∀ (day : DayData) (delta : ℚ),
      (add_realized_pnl day delta).loss_streak =
        (if delta < 0 then day.loss_streak + 1 else 0) :=
  ⟨by norm_num [add_realized_pnl, pyRound6, emptyDay], fun _ _ => rfl⟩

/-- C10: when the used-initial-margin field is missing or non-numeric
while total_equity is finite and positive, the poll succeeds with
utilization 0.0, which the default thresholds classify as NORMAL. -/
theorem missing_used_im_is_normal (e : Nat) (t : ℚ) (ht : 0 < t)
    (f : Option RawVal) (hf : f = none ∨ f = some .malformed)
    (free : Option RawVal) :
    get_wallet_utilization e
      { retCode := 0,
        list := [{ totalEquity := some (.numeric t), totalInitialMargin := f,
                   totalAvailableBalance := free }] } =
      (0, some { utilization := 0, total_equity := t, used_im := safe_float f,
                 free_equity := safe_float free }) ∧
    determine_risk_mode defaultConfig 0 = .NORMAL := by
  refine ⟨?_, by norm_num [determine_risk_mode, defaultConfig]⟩
  rcases hf with h | h <;> subst h <;>
    simp [get_wallet_utilization, safe_float, ht, zero_div]

/-- C10 witness. -/
theorem missing_used_im_is_normal_witness :
    get_wallet_utilization 0
      { retCode := 0,
        list := [{ totalEquity := some (.numeric 1000),
                   totalInitialMargin := some .malformed,
                   totalAvailableBalance := none }] } =
      (0, some { utilization := 0, total_equity := 1000, used_im := safe_float (some .malformed),
                 free_equity := safe_float none }) ∧
    determine_risk_mode defaultConfig 0 = .NORMAL :=
  missing_used_im_is_normal 0 1000 (by norm_num) (some .malformed) (Or.inr rfl) none

/-- C9: a failed monitor cycle increments the consecutive-error counter
and writes the emergency HALT fallback command exactly when the counter
has reached 3 (the fallback has mode HALT, allow_new_entries=false,
cancel_all_orders=true, priority IMMEDIATE); a successful poll resets the
counter to zero. -/
theorem repeated_failure_escalates (cfg : RiskConfig) (st : MonitorState)
    (resp : WalletResponse) :
    ((get_wallet_utilization st.consecutive_errors resp).2 = none →
      (monitor_and_command cfg st resp).1.consecutive_errors = st.consecutive_errors + 1 ∧
      (monitor_and_command cfg st resp).2.1 =
        (if 3 ≤ st.consecutive_errors + 1 then some emergency_fallback_command else none) ∧
      emergency_fallback_command.mode = .HALT ∧
      emergency_fallback_command.allow_new_entries = false ∧
      emergency_fallback_command.cancel_all_orders = some true ∧
      emergency_fallback_command.priority = some .IMMEDIATE) ∧
    ((get_wallet_utilization st.consecutive_errors resp).2 ≠ none →
      (monitor_and_command cfg st resp).1.consecutive_errors = 0) := by
  rcases get_wallet_utilization_cases st.consecutive_errors resp with h | ⟨snap, h⟩
  · refine ⟨fun _ => ⟨?_, ?_, rfl, rfl, rfl, rfl⟩, fun hne => absurd (by rw [h]) hne⟩
    · simp [monitor_and_command, h]
    · simp [monitor_and_command, h]
  · refine ⟨fun hnone => ?_, fun _ => ?_⟩
    · rw [h] at hnone; simp at hnone
    · simp [monitor_and_command, h]

/-- C9 witness: with two prior consecutive errors, a third failing poll
(bad retCode) writes the HALT fallback; a successful poll resets. -/
theorem repeated_failure_escalates_witness :
    (monitor_and_command defaultConfig
        { last_utilization := 0, last_mode := .NORMAL, consecutive_errors := 2 }
        { retCode := 1, list := [] }).1.consecutive_errors = 2 + 1 ∧
    (monitor_and_command defaultConfig
        { last_utilization := 0, last_mode := .NORMAL, consecutive_errors := 2 }
        { retCode := 1, list := [] }).2.1 =
      (if 3 ≤ 2 + 1 then some emergency_fallback_command else none) ∧
    emergency_fallback_command.mode = .HALT ∧
    emergency_fallback_command.allow_new_entries = false ∧
    emergency_fallback_command.cancel_all_orders = some true ∧
    emergency_fallback_command.priority = some .IMMEDIATE :=
  (repeated_failure_escalates defaultConfig
    { last_utilization := 0, last_mode := .NORMAL, consecutive_errors := 2 }
    { retCode := 1, list := [] }).1 (by decide)

/-- C2: with ascending thresholds, classify is monotonically
non-decreasing in severity, every threshold is inclusive on its lower
bound (classify(derisk_at) = DERISK, not ALERT), and u ≥ halt_at yields
HALT. -/
theorem classify_monotone_inclusive (cfg : RiskConfig)
    (h1 : cfg.warn_at ≤ cfg.derisk_at) (h2 : cfg.derisk_at < cfg.cap_at)
    (h3 : cfg.cap_at ≤ cfg.halt_at) :
    (∀ u v : ℚ, u ≤ v →
      (determine_risk_mode cfg u).severity ≤ (determine_risk_mode cfg v).severity) ∧
    determine_risk_mode cfg cfg.derisk_at = .DERISK ∧
    (∀ u : ℚ, cfg.halt_at ≤ u → determine_risk_mode cfg u = .HALT) := by
  refine ⟨?_, ?_, ?_⟩
  · intro u v huv
    unfold determine_risk_mode
    split_ifs <;> simp [RiskMode.severity] <;> linarith
  · unfold determine_risk_mode
    rw [if_neg (by simp only [ge_iff_le, not_le]; linarith),
        if_neg (by simp only [ge_iff_le, not_le]; linarith),
        if_pos (le_refl cfg.derisk_at)]
  · intro u hu
    unfold determine_risk_mode
    rw [if_pos hu]

/-- C2 witness at the default thresholds. -/
theorem classify_monotone_inclusive_witness :
    (determine_risk_mode defaultConfig (1/2)).severity ≤
      (determine_risk_mode defaultConfig (3/4)).severity ∧
    determine_risk_mode defaultConfig defaultConfig.derisk_at = .DERISK ∧
    determine_risk_mode defaultConfig (95/100) = .HALT := by
  have h := classify_monotone_inclusive defaultConfig
    (by norm_num [defaultConfig]) (by norm_num [defaultConfig]) (by norm_num [defaultConfig])
  exact ⟨h.1 (1/2) (3/4) (by norm_num), h.2.1, h.2.2 (95/100) (by norm_num [defaultConfig])⟩

/-- C4 counterexample: in command-file mode, `create_command` called in
DERISK mode with used_im=100, total_equity=1000 (so
excess_im = 100 - 0.60*1000 = -500 ≤ 0) still issues a close directive
(close_positions=true), contradicting the claim that no close directive
is issued when excess_im ≤ 0. -/
theorem derisk_close_directive_counterexample :
    (create_command defaultConfig .DERISK (3/4) 1000 (some 100)).close_positions = some true ∧
    (100 : ℚ) - defaultConfig.target_after_derisk * 1000 ≤ 0 := by
  constructor
  · rfl
  · norm_num [defaultConfig]

/-- C4 amended: in direct mode (`shed_margin_to_target`) no closing
action is emitted when excess_im ≤ 0; in command-file mode
`create_command` always sets close_positions for DERISK/EMERGENCY, but a
mode derived by `determine_risk_mode` from the same snapshot (with the
default thresholds and positive equity) forces excess_im > 0, so the
excess_im ≤ 0 case cannot arise within a monitoring cycle. -/
theorem excess_nonpositive_no_close :
    (∀ (positions : List Position) (total_equity used_im target chunk : ℚ),
      used_im - target * total_equity ≤ 0 →
      shed_margin_to_target positions total_equity used_im target chunk = []) ∧
    (∀ total_equity used_im : ℚ, 0 < total_equity →
      (determine_risk_mode defaultConfig
          (max 0 (min 1 (used_im / total_equity))) = .DERISK →
        0 < used_im - defaultConfig.target_after_derisk * total_equity) ∧
      (determine_risk_mode defaultConfig
          (max 0 (min 1 (used_im / total_equity))) = .EMERGENCY →
        0 < used_im - defaultConfig.target_after_emergency * total_equity)) := by
  constructor
  · intro positions total_equity used_im target chunk h
    simp [shed_margin_to_target, h]
  · intro total_equity used_im ht
    have key : ∀ c : ℚ, 0 < c → c ≤ max 0 (min 1 (used_im / total_equity)) →
        c * total_equity ≤ used_im := by
      intro c hc hcu
      rcases le_max_iff.mp hcu with h | h
      · linarith
      · have := le_min_iff.mp h
        calc c * total_equity ≤ (used_im / total_equity) * total_equity := by
              exact mul_le_mul_of_nonneg_right this.2 (le_of_lt ht)
          _ = used_im := div_mul_cancel₀ used_im (ne_of_gt ht)
    constructor
    · intro hmode
      unfold determine_risk_mode at hmode
      split_ifs at hmode with hh hc hd
      have h70 : (70/100 : ℚ) * total_equity ≤ used_im := key (70/100) (by norm_num) hd
      have he : defaultConfig.target_after_derisk = 60/100 := rfl
      rw [he]
      linarith
    · intro hmode
      unfold determine_risk_mode at hmode
      split_ifs at hmode with hh hc
      have h80 : (80/100 : ℚ) * total_equity ≤ used_im := key (80/100) (by norm_num) hc
      have he : defaultConfig.target_after_emergency = 58/100 := rfl
      rw [he]
      linarith

/-- C4 witness: a concrete no-op plan in direct mode and a concrete
DERISK snapshot with positive excess. -/
theorem excess_nonpositive_no_close_witness :
    shed_margin_to_target [] 1000 100 (60/100) (25/100) = [] ∧
    (determine_risk_mode defaultConfig (max 0 (min 1 ((750:ℚ) / 1000))) = .DERISK →
      0 < (750:ℚ) - defaultConfig.target_after_derisk * 1000) :=
  ⟨excess_nonpositive_no_close.1 [] 1000 100 (60/100) (25/100) (by norm_num),
   (excess_nonpositive_no_close.2 1000 750 (by norm_num)).1⟩

/-- Observing any path other than the one being written is unaffected by
the partial states of that write. -/
lemma writeStates_apply_ne (fs : FileSys) (p c : String) (watch : String)
    (hne : watch ≠ p) (st : FileSys) (hst : st ∈ writeStates fs p c) :
    st watch = fs watch := by
  rcases List.mem_map.mp hst with ⟨k, _, hk⟩
  subst hk
  simp [fsUpdate, hne]

/-- A write-temp-then-rename pair exposes only the old or the new content
of the final path. -/
lemma atomic_pair_observations (fs : FileSys) (tmp final c : String)
    (hne : tmp ≠ final) (o : Option String)
    (ho : o ∈ observations [.write tmp c, .rename tmp final] fs final) :
    o = fs final ∨ o = some c := by
  rcases List.mem_map.mp ho with ⟨st, hst, hobs⟩
  subst hobs
  simp only [microStates] at hst
  rcases List.mem_append.mp hst with h | h
  · left
    exact writeStates_apply_ne fs tmp c final (Ne.symm hne) st h
  · rcases List.mem_cons.mp h with h | h
    · subst h
      left
      simp [fsUpdate, Ne.symm hne]
    · rcases List.mem_cons.mp h with h | h
      · subst h
        right
        simp [fsUpdate, Ne.symm hne, hne]
      · simp at h

/-- C7 amended: the command-file write and the panic-lock write are
atomic (a reader of the final path only ever sees the old or the new
complete content), but the risk_guard flag file is written directly in
place, so a reader can observe a partially written flag file (see the
counterexample). -/
theorem state_store_atomic_writes (fs : FileSys) :
    (∀ (command_file c : String) (o : Option String),
      o ∈ observations (write_command_file_ops command_file c) fs command_file →
      o = fs command_file ∨ o = some c) ∧
    (∀ (lock_path c : String), with_suffix_tmp lock_path ≠ lock_path →
      ∀ o : Option String,
      o ∈ observations (create_panic_lock_ops lock_path c) fs lock_path →
      o = fs lock_path ∨ o = some c) := by
  constructor
  · intro command_file c o ho
    have hne : command_file ++ ".tmp" ≠ command_file := by
      intro h
      have h2 := congrArg String.length h
      have h4 : (".tmp").length = 4 := rfl
      rw [String.length_append, h4] at h2
      omega
    exact atomic_pair_observations fs (command_file ++ ".tmp") command_file c hne o ho
  · intro lock_path c hne o ho
    exact atomic_pair_observations fs (with_suffix_tmp lock_path) lock_path c hne o ho

/-- C7 witness: concrete observations of the command file and of the
default panic-lock path. -/
theorem state_store_atomic_writes_witness :
    ((some "newdata" : Option String) = (fun _ => some "olddata" : FileSys) "risk_commands.json" ∨
      (some "newdata" : Option String) = some "newdata") ∧
    ((some "olddata" : Option String) = (fun _ => some "olddata" : FileSys) "state/panic.lock" ∨
      (some "olddata" : Option String) = some "newdata") := by
  constructor
  · exact (state_store_atomic_writes (fun _ => some "olddata")).1 "risk_commands.json"
      "newdata" (some "newdata") (by decide)
  · exact (state_store_atomic_writes (fun _ => some "olddata")).2 "state/panic.lock"
      "newdata" (by decide) (some "olddata") (by decide)

/-- C7 counterexample: the risk_guard flag file is written directly to
its final path, and a concurrent reader can observe the strict partial
prefix "new" of the new content "newdata" — neither the old nor the new
complete content. -/
theorem flag_write_not_atomic_counterexample :
    write_flag_file_ops "risk_flag.json" "newdata" = [.write "risk_flag.json" "newdata"] ∧
    (some "new" : Option String) ∈
      observations (write_flag_file_ops "risk_flag.json" "newdata")
        (fun _ => some "olddata") "risk_flag.json" ∧
    (some "new" : Option String) ≠ some "olddata" ∧
    (some "new" : Option String) ≠ some "newdata" := by
  refine ⟨rfl, by decide, by decide, by decide⟩

/-- C5: when the panic lock is active with a persisted report, a panic
invocation returns that report with no cancel/close gateway calls and
leaves all state untouched, so a second consecutive invocation returns
the identical report content and again issues no calls. -/
theorem panic_reentry_idempotent (max_retries : Nat) (st : PanicState)
    (client : Option Gateway) (doc : LockDoc)
    (htripped : st.panic_tripped = true) (hlock : st.lock_file = some doc) :
    (execute_panic max_retries st client).report = doc.last_report ∧
    (execute_panic max_retries st client).calls = [] ∧
    (execute_panic max_retries
        (execute_panic max_retries st client).state
        (execute_panic max_retries st client).client).report =
      (execute_panic max_retries st client).report ∧
    (execute_panic max_retries
        (execute_panic max_retries st client).state
        (execute_panic max_retries st client).client).calls = [] := by
  have h1 : execute_panic max_retries st client =
      { report := doc.last_report, calls := [], state := st, client := client } := by
    unfold execute_panic
    rw [if_pos htripped, hlock]
  rw [h1]
  refine ⟨rfl, rfl, ?_, ?_⟩ <;>
    simp only [execute_panic, htripped, if_pos, hlock]

/-- C5 witness. -/
theorem panic_reentry_idempotent_witness :
    (execute_panic 5
        { trading_enabled := false, panic_tripped := true,
          lock_file := some { panic_tripped := true, trading_enabled := false,
                              last_report := { orders_canceled := 3 } },
          sentinel := true } none).report =
      ({ panic_tripped := true, trading_enabled := false,
         last_report := { orders_canceled := 3 } : LockDoc }).last_report ∧
    (execute_panic 5
        { trading_enabled := false, panic_tripped := true,
          lock_file := some { panic_tripped := true, trading_enabled := false,
                              last_report := { orders_canceled := 3 } },
          sentinel := true } none).calls = [] ∧
    (execute_panic 5
        (execute_panic 5
          { trading_enabled := false, panic_tripped := true,
            lock_file := some { panic_tripped := true, trading_enabled := false,
                                last_report := { orders_canceled := 3 } },
            sentinel := true } none).state
        (execute_panic 5
          { trading_enabled := false, panic_tripped := true,
            lock_file := some { panic_tripped := true, trading_enabled := false,
                                last_report := { orders_canceled := 3 } },
            sentinel := true } none).client).report =
      (execute_panic 5
        { trading_enabled := false, panic_tripped := true,
          lock_file := some { panic_tripped := true, trading_enabled := false,
                              last_report := { orders_canceled := 3 } },
          sentinel := true } none).report ∧
    (execute_panic 5
        (execute_panic 5
          { trading_enabled := false, panic_tripped := true,
            lock_file := some { panic_tripped := true, trading_enabled := false,
                                last_report := { orders_canceled := 3 } },
            sentinel := true } none).state
        (execute_panic 5
          { trading_enabled := false, panic_tripped := true,
            lock_file := some { panic_tripped := true, trading_enabled := false,
                                last_report := { orders_canceled := 3 } },
            sentinel := true } none).client).calls = [] :=
  panic_reentry_idempotent 5
    { trading_enabled := false, panic_tripped := true,
      lock_file := some { panic_tripped := true, trading_enabled := false,
                          last_report := { orders_canceled := 3 } },
      sentinel := true } none
    { panic_tripped := true, trading_enabled := false,
      last_report := { orders_canceled := 3 } } rfl rfl

/-- C6: reset first re-queries the exchange; with a nonzero position or
order count it refuses, reporting both remaining counts and leaving the
entire panic state (lock file included) untouched; with both counts zero
it succeeds, removing the lock file and sentinel and re-enabling
trading. -/
theorem reset_safety_gate (st : PanicState) (g : Gateway) :
    (0 < (symbols_with_positions g).length ∨ 0 < (symbols_with_orders g).length →
      reset_panic st (some g) =
        ({ success := false, error := some "Unsafe reset",
           positions_remaining := some (symbols_with_positions g).length,
           orders_remaining := some (symbols_with_orders g).length }, st)) ∧
    ((symbols_with_positions g).length = 0 → (symbols_with_orders g).length = 0 →
      reset_panic st (some g) =
        ({ success := true },
         { st with lock_file := none, panic_tripped := false,
                   trading_enabled := true, sentinel := false })) := by
  constructor
  · intro h
    simp only [reset_panic]
    rw [if_pos h]
  · intro hp ho
    simp only [reset_panic]
    rw [if_neg (by rw [hp, ho]; simp)]

/-- C6 witness: a gateway still holding one live position forces a
refusal; the empty gateway lets reset succeed. -/
theorem reset_safety_gate_witness :
    reset_panic { panic_tripped := true } (some
        { coins := ["BTC"],
          positions := [("BTCUSDT",
            { ret_msg := "OK", data := [{ entry_price := 100, size := 2, side := "Buy" }] })],
          linOrders := [], condOrders := [],
          cancelLinMsg := [], cancelCondMsg := [], placeMsg := [] }) =
      ({ success := false, error := some "Unsafe reset",
         positions_remaining := some 1, orders_remaining := some 0 },
       { panic_tripped := true }) ∧
    reset_panic { panic_tripped := true } (some
        { coins := ["BTC"], positions := [], linOrders := [], condOrders := [],
          cancelLinMsg := [], cancelCondMsg := [], placeMsg := [] }) =
      ({ success := true },
       { panic_tripped := false, trading_enabled := true, lock_file := none,
         sentinel := false }) := by
  constructor
  · exact (reset_safety_gate { panic_tripped := true }
      { coins := ["BTC"],
        positions := [("BTCUSDT",
          { ret_msg := "OK", data := [{ entry_price := 100, size := 2, side := "Buy" }] })],
        linOrders := [], condOrders := [],
        cancelLinMsg := [], cancelCondMsg := [], placeMsg := [] }).1 (by decide)
  · exact (reset_safety_gate { panic_tripped := true }
      { coins := ["BTC"], positions := [], linOrders := [], condOrders := [],
        cancelLinMsg := [], cancelCondMsg := [], placeMsg := [] }).2
      (by decide) (by decide)

/-- The loop stops immediately once the remaining excess is not
positive. -/
lemma shed_loop_eq_nil (chunk : ℚ) (ps : List Position) (r : ℚ) (h : r ≤ 0) :
    shed_loop chunk ps r = [] := by
  cases ps with
  | nil => rfl
  | cons p rest => simp [shed_loop, h]

/-- Every fraction the loop emits lies in (0, 1] whenever the chunk
fraction does. -/
lemma shed_loop_fraction_mem (chunk : ℚ) (h0 : 0 < chunk) (h1 : chunk ≤ 1) :
    ∀ (ps : List Position) (r : ℚ) (pf : Position × ℚ),
      pf ∈ shed_loop chunk ps r → 0 < pf.2 ∧ pf.2 ≤ 1 := by
  intro ps
  induction ps with
  | nil =>
    intro r pf h
    simp [shed_loop] at h
  | cons p rest ih =>
    intro r pf h
    by_cases hr : r ≤ 0
    · rw [shed_loop_eq_nil chunk _ r hr] at h
      simp at h
    · simp only [shed_loop, if_neg hr] at h
      by_cases hok :
          close_ok p (min chunk (max (5/100) (r / max (1/1000000000) p.position_im)))
      · rw [if_pos hok] at h
        rcases List.mem_cons.mp h with h | h
        · subst h
          exact ⟨lt_min h0 (lt_of_lt_of_le (by norm_num) (le_max_left _ _)),
                 le_trans (min_le_left _ _) h1⟩
        · exact ih _ pf h
      · rw [if_neg hok] at h
        exact ih _ pf h

/-- Under the loop's positivity hypotheses, every position at the head of
the list passes the `close_position_fraction` checks. -/
lemma close_ok_needed (chunk : ℚ) (h0 : 0 < chunk) (h1 : chunk ≤ 1)
    (p : Position) (hc : 0 < p.contracts) (x : ℚ) :
    close_ok p (min chunk (max (5/100) x)) = true := by
  have hpos : 0 < min chunk (max (5/100) x) :=
    lt_min h0 (lt_of_lt_of_le (by norm_num) (le_max_left _ _))
  have hle : min chunk (max (5/100) x) ≤ 1 := le_trans (min_le_left _ _) h1
  unfold close_ok
  simp [hpos, hle, mul_pos hc hpos]

/-- If the requested excess is positive and at most
`chunk * total position margin`, the loop's estimated freed margin covers
the request (positions carry at least the 1e-9 epsilon of margin and a
positive size). -/
lemma shed_loop_freed_ge (chunk : ℚ) (h0 : 0 < chunk) (h1 : chunk ≤ 1) :
    ∀ ps : List Position,
      (∀ p ∈ ps, (1:ℚ)/1000000000 ≤ p.position_im ∧ 0 < p.contracts) →
      ∀ r : ℚ, 0 < r → r ≤ chunk * total_position_im ps →
      r ≤ freed_sum (shed_loop chunk ps r) := by
  intro ps
  induction ps with
  | nil =>
    intro _ r hr hle
    exfalso
    simp [total_position_im] at hle
    linarith
  | cons p rest ih =>
    intro hmem r hr hle
    have hp := hmem p (List.mem_cons_self p rest)
    have hε : (1:ℚ)/1000000000 ≤ p.position_im := hp.1
    have hm : 0 < p.position_im := lt_of_lt_of_le (by norm_num) hε
    have hmaxm : max ((1:ℚ)/1000000000) p.position_im = p.position_im := max_eq_right hε
    have hrneg : ¬ (r ≤ 0) := not_le.mpr hr
    simp only [shed_loop, if_neg hrneg, hmaxm,
      if_pos (close_ok_needed chunk h0 h1 p hp.2 (r / p.position_im))]
    set needed := min chunk (max (5/100) (r / p.position_im)) with hneed
    simp only [freed_sum, List.map_cons, List.sum_cons]
    rcases le_or_lt (r - p.position_im * needed) 0 with hend | hcont
    · rw [shed_loop_eq_nil chunk rest _ hend]
      simp only [List.map_nil, List.sum_nil, add_zero]
      linarith
    · have hneedchunk : needed = chunk := by
        rcases le_total chunk (max (5/100) (r / p.position_im)) with hca | hac
        · exact min_eq_left hca
        · exfalso
          have hA : needed = max (5/100) (r / p.position_im) := min_eq_right hac
          rcases le_total (r / p.position_im) (5/100) with h5 | h5
          · have hA2 : needed = 5/100 := by rw [hA, max_eq_left h5]
            have hrle2 : r ≤ 5/100 * p.position_im := by
              have := (div_le_iff₀ hm).mp h5
              linarith
            rw [hA2] at hcont
            linarith
          · have hA2 : needed = r / p.position_im := by rw [hA, max_eq_right h5]
            have hdone : p.position_im * needed = r := by
              rw [hA2, mul_comm]
              exact div_mul_cancel₀ r (ne_of_gt hm)
            linarith
      have hrest : ∀ q ∈ rest, (1:ℚ)/1000000000 ≤ q.position_im ∧ 0 < q.contracts :=
        fun q hq => hmem q (List.mem_cons_of_mem p hq)
      have hsum : total_position_im (p :: rest) =
          p.position_im + total_position_im rest := by
        simp [total_position_im]
      have hle2 : r - p.position_im * needed ≤ chunk * total_position_im rest := by
        rw [hneedchunk]
        rw [hsum, mul_add] at hle
        have : chunk * p.position_im = p.position_im * chunk := mul_comm _ _
        linarith [hle, this]
      have hrec := ih hrest (r - p.position_im * needed) hcont hle2
      simp only [freed_sum] at hrec
      linarith

/-- When `chunk * total position margin` cannot cover the request, the
loop runs off the end of the list, emitting every position. -/
lemma shed_loop_exhausts (chunk : ℚ) (h0 : 0 < chunk) (h1 : chunk ≤ 1) :
    ∀ ps : List Position,
      (∀ p ∈ ps, (1:ℚ)/1000000000 ≤ p.position_im ∧ 0 < p.contracts) →
      ∀ r : ℚ, 0 < r → chunk * total_position_im ps < r →
      (shed_loop chunk ps r).map Prod.fst = ps := by
  intro ps
  induction ps with
  | nil =>
    intro _ r _ _
    simp [shed_loop]
  | cons p rest ih =>
    intro hmem r hr hlt
    have hp := hmem p (List.mem_cons_self p rest)
    have hε : (1:ℚ)/1000000000 ≤ p.position_im := hp.1
    have hm : 0 < p.position_im := lt_of_lt_of_le (by norm_num) hε
    have hmaxm : max ((1:ℚ)/1000000000) p.position_im = p.position_im := max_eq_right hε
    have hrneg : ¬ (r ≤ 0) := not_le.mpr hr
    simp only [shed_loop, if_neg hrneg, hmaxm,
      if_pos (close_ok_needed chunk h0 h1 p hp.2 (r / p.position_im))]
    set needed := min chunk (max (5/100) (r / p.position_im)) with hneed
    simp only [List.map_cons, List.cons.injEq, true_and]
    have hsumrest : 0 ≤ total_position_im rest := by
      unfold total_position_im
      apply List.sum_nonneg
      intro x hx
      rcases List.mem_map.mp hx with ⟨q, hq, rfl⟩
      have := (hmem q (List.mem_cons_of_mem p hq)).1
      linarith
    have hfreedle : p.position_im * needed ≤ chunk * p.position_im := by
      calc p.position_im * needed ≤ p.position_im * chunk :=
            mul_le_mul_of_nonneg_left (min_le_left _ _) (le_of_lt hm)
        _ = chunk * p.position_im := mul_comm _ _
    have hsum : total_position_im (p :: rest) =
        p.position_im + total_position_im rest := by
      simp [total_position_im]
    rw [hsum, mul_add] at hlt
    have hr2 : 0 < r - p.position_im * needed := by
      have hnn : 0 ≤ chunk * total_position_im rest :=
        mul_nonneg (le_of_lt h0) hsumrest
      linarith
    have hlt2 : chunk * total_position_im rest < r - p.position_im * needed := by
      linarith
    exact ih (fun q hq => hmem q (List.mem_cons_of_mem p hq)) _ hr2 hlt2

/-- C3 amended: for positions with contracts > 0 and position margin at
least the 1e-9 epsilon, and a chunk fraction in (0, 1], the plan emits
only close fractions in (0, 1]; the estimated freed margin covers the
requested excess whenever `chunk_fraction * total position margin` is at
least the excess, and otherwise the plan exhausts every position. -/
theorem shed_plan_bounds (positions : List Position)
    (total_equity used_im target_utilization chunk_fraction : ℚ)
    (hchunk0 : 0 < chunk_fraction) (hchunk1 : chunk_fraction ≤ 1)
    (hpos : ∀ p ∈ positions, (1:ℚ)/1000000000 ≤ p.position_im ∧ 0 < p.contracts) :
    (∀ pf ∈ shed_margin_to_target positions total_equity used_im
        target_utilization chunk_fraction, 0 < pf.2 ∧ pf.2 ≤ 1) ∧
    (used_im - target_utilization * total_equity ≤
        chunk_fraction * total_position_im positions →
      0 < used_im - target_utilization * total_equity →
      used_im - target_utilization * total_equity ≤
        freed_sum (shed_margin_to_target positions total_equity used_im
          target_utilization chunk_fraction)) ∧
    (chunk_fraction * total_position_im positions <
        used_im - target_utilization * total_equity →
      ((shed_margin_to_target positions total_equity used_im
          target_utilization chunk_fraction).map Prod.fst).Perm positions) := by
  have hfilter : positions.filter (fun p => decide (0 < p.position_im)) = positions :=
    List.filter_eq_self.mpr (fun p hp => by
      simpa using lt_of_lt_of_le (by norm_num) (hpos p hp).1)
  have hperm : (positions.mergeSort shed_sort_le).Perm positions :=
    List.mergeSort_perm positions shed_sort_le
  have hmem2 : ∀ p ∈ positions.mergeSort shed_sort_le,
      (1:ℚ)/1000000000 ≤ p.position_im ∧ 0 < p.contracts :=
    fun p hp => hpos p (List.mem_mergeSort.mp hp)
  have hsort_sum : total_position_im (positions.mergeSort shed_sort_le) =
      total_position_im positions := by
    unfold total_position_im
    exact (hperm.map Position.position_im).sum_eq
  have htot_nonneg : 0 ≤ total_position_im positions := by
    unfold total_position_im
    apply List.sum_nonneg
    intro x hx
    rcases List.mem_map.mp hx with ⟨q, hq, rfl⟩
    have := (hpos q hq).1
    linarith
  refine ⟨?_, ?_, ?_⟩
  · intro pf hpf
    simp only [shed_margin_to_target] at hpf
    by_cases hneg : used_im - target_utilization * total_equity ≤ 0
    · rw [if_pos hneg] at hpf
      simp at hpf
    · rw [if_neg hneg, hfilter] at hpf
      exact shed_loop_fraction_mem chunk_fraction hchunk0 hchunk1 _ _ pf hpf
  · intro hle hpos2
    simp only [shed_margin_to_target]
    rw [if_neg (not_le.mpr hpos2), hfilter]
    exact shed_loop_freed_ge chunk_fraction hchunk0 hchunk1 _ hmem2 _ hpos2
      (by rw [hsort_sum]; exact hle)
  · intro hlt
    have hpos2 : 0 < used_im - target_utilization * total_equity :=
      lt_of_le_of_lt (mul_nonneg (le_of_lt hchunk0) htot_nonneg) hlt
    simp only [shed_margin_to_target]
    rw [if_neg (not_le.mpr hpos2), hfilter]
    rw [shed_loop_exhausts chunk_fraction hchunk0 hchunk1 _ hmem2 _ hpos2
      (by rw [hsort_sum]; exact hlt)]
    exact hperm

/-- C3 witness: one position with margin 300, chunk 1/4, excess 75:
the plan's fractions are in (0,1] and the freed margin covers the
excess. -/
theorem shed_plan_bounds_witness :
    (∀ pf ∈ shed_margin_to_target
        [{ symbol := "W", side := "long", contracts := 1, leverage := 2,
           entry_price := 10, position_im := 300, unrealized_pnl := 0,
           is_losing := false }] 1000 675 (60/100) (25/100),
      0 < pf.2 ∧ pf.2 ≤ 1) ∧
    (675:ℚ) - (60/100) * 1000 ≤
      freed_sum (shed_margin_to_target
        [{ symbol := "W", side := "long", contracts := 1, leverage := 2,
           entry_price := 10, position_im := 300, unrealized_pnl := 0,
           is_losing := false }] 1000 675 (60/100) (25/100)) := by
  have h := shed_plan_bounds
    [{ symbol := "W", side := "long", contracts := 1, leverage := 2,
       entry_price := 10, position_im := 300, unrealized_pnl := 0,
       is_losing := false }] 1000 675 (60/100) (25/100)
    (by norm_num) (by norm_num)
    (by
      intro p hp
      simp only [List.mem_singleton] at hp
      subst hp
      norm_num)
  exact ⟨h.1, h.2.1 (by norm_num [total_position_im]) (by norm_num)⟩

/-- C3 counterexample to the claim as stated: a single position with
margin 100 (so total available margin 100 ≥ excess 50, margins positive,
excess positive, chunk fraction 1/4 positive), yet the whole plan frees
only an estimated 25 < 50. -/
theorem shed_plan_counterexample :
    0 < ({ symbol := "A", side := "long", contracts := 1, leverage := 1,
           entry_price := 1, position_im := 100, unrealized_pnl := 0,
           is_losing := false } : Position).position_im ∧
    0 < (1:ℚ)/4 ∧
    0 < (650:ℚ) - (60/100) * 1000 ∧
    (650:ℚ) - (60/100) * 1000 ≤ total_position_im
      [{ symbol := "A", side := "long", contracts := 1, leverage := 1,
         entry_price := 1, position_im := 100, unrealized_pnl := 0,
         is_losing := false }] ∧
    freed_sum (shed_margin_to_target
      [{ symbol := "A", side := "long", contracts := 1, leverage := 1,
         entry_price := 1, position_im := 100, unrealized_pnl := 0,
         is_losing := false }] 1000 650 (60/100) (1/4)) <
      (650:ℚ) - (60/100) * 1000 := by
  refine ⟨by norm_num, by norm_num, by norm_num, by norm_num [total_position_im], ?_⟩
  rw [show (650:ℚ) - (60/100) * 1000 = 50 by norm_num]
  simp only [shed_margin_to_target]
  rw [if_neg (by norm_num)]
  rw [List.filter_eq_self.mpr (by intro a ha; simp at ha; subst ha; norm_num)]
  rw [List.mergeSort_singleton]
  simp only [shed_loop]
  rw [if_neg (by norm_num)]
  rw [if_pos (close_ok_needed (1/4) (by norm_num) (by norm_num) _ (by norm_num) _)]
  norm_num [freed_sum, shed_loop]

end TradingBot
